import Mathlib

/-!
Verification of the OlyObd OBD-II CAN-bus reader (src/src/main.cpp).

The program targets an Arduino UNO (AVR), where `int` is a 16-bit
two's-complement integer and `unsigned long` (the type of `millis()`)
is 32 bits.  The embedding therefore wraps every `int` arithmetic
result into [-32768, 32767] via `wrap16`, and models the unsigned
32-bit subtraction `millis() - startTime` via `usub32`.  C++ integer
division truncates toward zero, which is `Int.tdiv`.

The CAN transport (MCP_CAN) is an external collaborator; it is
modelled as an environment trace indexed by polling steps: at step `k`
the clock reads `time k` ms, `checkReceive` reports `avail k`, and a
read delivers `frame k`.  The busy-wait loop of `readOBDResponse` is
embedded with explicit fuel (the source loop terminates only because
real time advances; fuel plays that role in the model).
-/

namespace OlyObd

/-- Unsigned 32-bit subtraction `(a - b) mod 2^32`, as computed by the
C expression `millis() - startTime` on `unsigned long` values. -/
def usub32 (a b : Nat) : Nat :=
  (a % 4294967296 + 4294967296 - b % 4294967296) % 4294967296

/-- Reduction of an integer into the 16-bit two's-complement range
[-32768, 32767], the behaviour of AVR `int` arithmetic on overflow. -/
def wrap16 (n : Int) : Int :=
  (n + 32768) % 65536 - 32768

/-- OBD-II Standard PIDs (main.cpp lines 28-32). -/
def PID_ENGINE_RPM : Nat := 0x0C

def PID_VEHICLE_SPEED : Nat := 0x0D

def PID_COOLANT_TEMP : Nat := 0x05

def PID_THROTTLE_POSITION : Nat := 0x11

def PID_ENGINE_LOAD : Nat := 0x04

/-- Functional broadcast address (main.cpp line 38). -/
def OBD_REQUEST_ID : Nat := 0x7DF

/-- Request interval in ms (main.cpp line 42). -/
def OBD_REQUEST_INTERVAL : Nat := 1000

/-- Response timeout in ms (main.cpp line 43). -/
def CAN_TIMEOUT : Nat := 100

/-- A frame delivered by `CAN.readMsgBuf` / `CAN.getCanId`: the
reported length, the 29/11-bit identifier, and the 8-byte buffer
(`byte buf[8]` in the source; the buffer always has 8 cells whatever
`len` reports). -/
structure CANFrame where
  len : Nat
  canId : Nat
  buf : Fin 8 → Nat

/-- A frame handed to `CAN.sendMsgBuf`: identifier, length, payload. -/
structure SentFrame where
  canId : Nat
  len : Nat
  data : Fin 8 → Nat

/-- `sendOBDRequest` (main.cpp lines 51-58): builds
`{0x02, 0x01, pid, 0, 0, 0, 0, 0}` and sends it on 0x7DF with len 8. -/
def sendOBDRequest (pid : Nat) : SentFrame :=
  ⟨OBD_REQUEST_ID, 8, ![0x02, 0x01, pid, 0x00, 0x00, 0x00, 0x00, 0x00]⟩

/-- The transport-and-clock environment of one run: at polling step
`k`, `millis()` reads `time k`, `CAN.checkReceive` reports `avail k`,
and `CAN.readMsgBuf`/`getCanId` deliver `frame k`. -/
structure Env where
  time : Nat → Nat
  avail : Nat → Bool
  frame : Nat → CANFrame

/-- The acceptance test of `readOBDResponse` (main.cpp lines 79-84):
identifier in [0x7E8, 0x7EF], `buf[1] == 0x41`, `buf[2] == pid`.
(The source writes it as two nested `if`s whose fall-through both
continue the loop, which is the conjunction of the three tests.) -/
def isMatchingResponse (f : CANFrame) (pid : Nat) : Bool :=
  (decide (0x7E8 ≤ f.canId) && decide (f.canId ≤ 0x7EF))
    && (f.buf 1 == 0x41 && f.buf 2 == pid)

/-- The copy loop of main.cpp lines 86-88: `response[i] = buf[3 + i]`
for `i = 0..4`. -/
def extractData (f : CANFrame) : Fin 5 → Nat :=
  fun i => f.buf ⟨3 + i.val, by omega⟩

/-- Outcome of `readOBDResponse`, extended with the polling step at
which the function returned (so that elapsed time is observable). -/
inductive ReadResult where
  | ok (data : Fin 5 → Nat) (k : Nat)
  | timeout (k : Nat)

/-- The polling loop of `readOBDResponse` (main.cpp lines 69-95),
with `start = startTime` captured once at entry and never changed:
while `millis() - startTime < CAN_TIMEOUT`, poll; a matching frame
returns its data bytes 3..7, anything else falls through to
`delay(5)` and the next step.  `none` means the fuel ran out (a model
artifact standing for a run observed for too few steps). -/
def readOBDAux (pid : Nat) (env : Env) (start : Nat) :
    Nat → Nat → Option ReadResult
  | 0, _ => none
  | fuel + 1, k =>
    if usub32 (env.time k) start < CAN_TIMEOUT then
      if env.avail k then
        if isMatchingResponse (env.frame k) pid then
          some (ReadResult.ok (extractData (env.frame k)) k)
        else
          readOBDAux pid env start fuel (k + 1)
      else
        readOBDAux pid env start fuel (k + 1)
    else
      some (ReadResult.timeout k)

/-- `readOBDResponse` (main.cpp lines 66-96): record
`startTime = millis()` at entry (step `k0`), then run the polling
loop. -/
def readOBDResponse (pid : Nat) (env : Env) (k0 fuel : Nat) :
    Option ReadResult :=
  readOBDAux pid env (env.time k0) fuel k0

/-- RPM decoding (main.cpp line 108):
`int rpm = ((response[0] * 256) + response[1]) / 4;` computed in
16-bit AVR `int` arithmetic, each operation wrapping. -/
def decodeRPM (r : Fin 5 → Nat) : Int :=
  Int.tdiv (wrap16 (wrap16 ((r 0 : Int) * 256) + (r 1 : Int))) 4

/-- Speed decoding (main.cpp line 124): `return response[0];`. -/
def decodeSpeed (r : Fin 5 → Nat) : Int :=
  (r 0 : Int)

/-- Coolant decoding (main.cpp line 139): `return response[0] - 40;`. -/
def decodeCoolant (r : Fin 5 → Nat) : Int :=
  wrap16 ((r 0 : Int) - 40)

/-- Throttle decoding (main.cpp line 154):
`return (response[0] * 100) / 255;`. -/
def decodeThrottle (r : Fin 5 → Nat) : Int :=
  Int.tdiv (wrap16 ((r 0 : Int) * 100)) 255

/-- Engine-load decoding (main.cpp line 169):
`return (response[0] * 100) / 255;`. -/
def decodeLoad (r : Fin 5 → Nat) : Int :=
  Int.tdiv (wrap16 ((r 0 : Int) * 100)) 255

/-- Result of one `getXxx` call: the returned `int`, the request
frames handed to `CAN.sendMsgBuf` during the call, and the next free
polling step. -/
structure CallResult where
  value : Int
  sends : List SentFrame
  next : Nat

/-- `getEngineRPM` (main.cpp lines 102-112): send the request, read
the response, decode or return -1. -/
def getEngineRPM (env : Env) (k0 fuel : Nat) : Option CallResult :=
  match readOBDResponse PID_ENGINE_RPM env k0 fuel with
  | some (ReadResult.ok d k) =>
      some ⟨decodeRPM d, [sendOBDRequest PID_ENGINE_RPM], k + 1⟩
  | some (ReadResult.timeout k) =>
      some ⟨-1, [sendOBDRequest PID_ENGINE_RPM], k + 1⟩
  | none => none

/-- `getVehicleSpeed` (main.cpp lines 118-127). -/
def getVehicleSpeed (env : Env) (k0 fuel : Nat) : Option CallResult :=
  match readOBDResponse PID_VEHICLE_SPEED env k0 fuel with
  | some (ReadResult.ok d k) =>
      some ⟨decodeSpeed d, [sendOBDRequest PID_VEHICLE_SPEED], k + 1⟩
  | some (ReadResult.timeout k) =>
      some ⟨-1, [sendOBDRequest PID_VEHICLE_SPEED], k + 1⟩
  | none => none

/-- `getCoolantTemp` (main.cpp lines 133-142); failure sentinel -999. -/
def getCoolantTemp (env : Env) (k0 fuel : Nat) : Option CallResult :=
  match readOBDResponse PID_COOLANT_TEMP env k0 fuel with
  | some (ReadResult.ok d k) =>
      some ⟨decodeCoolant d, [sendOBDRequest PID_COOLANT_TEMP], k + 1⟩
  | some (ReadResult.timeout k) =>
      some ⟨-999, [sendOBDRequest PID_COOLANT_TEMP], k + 1⟩
  | none => none

/-- `getThrottlePosition` (main.cpp lines 148-157). -/
def getThrottlePosition (env : Env) (k0 fuel : Nat) : Option CallResult :=
  match readOBDResponse PID_THROTTLE_POSITION env k0 fuel with
  | some (ReadResult.ok d k) =>
      some ⟨decodeThrottle d, [sendOBDRequest PID_THROTTLE_POSITION], k + 1⟩
  | some (ReadResult.timeout k) =>
      some ⟨-1, [sendOBDRequest PID_THROTTLE_POSITION], k + 1⟩
  | none => none

/-- `getEngineLoad` (main.cpp lines 163-172). -/
def getEngineLoad (env : Env) (k0 fuel : Nat) : Option CallResult :=
  match readOBDResponse PID_ENGINE_LOAD env k0 fuel with
  | some (ReadResult.ok d k) =>
      some ⟨decodeLoad d, [sendOBDRequest PID_ENGINE_LOAD], k + 1⟩
  | some (ReadResult.timeout k) =>
      some ⟨-1, [sendOBDRequest PID_ENGINE_LOAD], k + 1⟩
  | none => none

/-- One full sweep: the five reads of the `loop()` body (main.cpp
lines 211-263), in source order, each running to completion before
the next.  Returns the request frames sent (in send order), the five
returned values, and the next free polling step. -/
def sweep (env : Env) (k0 fuel : Nat) :
    Option (List SentFrame × List Int × Nat) :=
  match getEngineRPM env k0 fuel with
  | none => none
  | some r1 =>
    match getVehicleSpeed env r1.next fuel with
    | none => none
    | some r2 =>
      match getCoolantTemp env r2.next fuel with
      | none => none
      | some r3 =>
        match getThrottlePosition env r3.next fuel with
        | none => none
        | some r4 =>
          match getEngineLoad env r4.next fuel with
          | none => none
          | some r5 =>
            some (r1.sends ++ r2.sends ++ r3.sends ++ r4.sends ++ r5.sends,
              [r1.value, r2.value, r3.value, r4.value, r5.value],
              r5.next)

/-- Initial value of the global `lastRequestTime` (main.cpp line 45). -/
def lastRequestTimeInit : Nat := 0

/-- Scheduler state: the global `lastRequestTime` and the current
polling step. -/
structure LoopState where
  lastRequestTime : Nat
  k : Nat

/-- One iteration of `loop()` (main.cpp lines 204-268): read
`currentTime = millis()`; if a full request interval has elapsed,
store `currentTime` into `lastRequestTime` and run the sweep;
otherwise fall through to `delay(10)`. -/
def loopIter (env : Env) (fuel : Nat) (s : LoopState) : Option LoopState :=
  let currentTime := env.time s.k
  if OBD_REQUEST_INTERVAL ≤ usub32 currentTime s.lastRequestTime then
    match sweep env (s.k + 1) fuel with
    | some out => some ⟨currentTime, out.2.2⟩
    | none => none
  else
    some ⟨s.lastRequestTime, s.k + 1⟩

end OlyObd

namespace OlyObd

/-! ### Helper lemmas -/

theorem usub32_add (b d : Nat) (hd : d < 4294967296) : usub32 (b + d) b = d := by
  unfold usub32
  omega

theorem time_shift (env : Env) (k0 : Nat)
    (ht : ∀ k, env.time (k + 1) = env.time k + 5) :
    ∀ j, env.time (k0 + j) = env.time k0 + 5 * j := by
  intro j
  induction j with
  | zero => simp
  | succ n ih =>
    rw [← Nat.add_assoc, ht (k0 + n), ih]
    ring

/-- Byte 2 of the built request frame is the PID. -/
theorem sendOBDRequest_data2 (pid : Nat) : (sendOBDRequest pid).data 2 = pid := rfl

/-- The built request frame is sent on the broadcast identifier. -/
theorem sendOBDRequest_id (pid : Nat) : (sendOBDRequest pid).canId = OBD_REQUEST_ID := rfl

end OlyObd

namespace OlyObd

/-! ### Claim theorems -/

/-- C1: the response-matching check accepts a frame iff its CAN
identifier lies in [0x7E8, 0x7EF], payload byte 1 equals 0x41, and
payload byte 2 equals the queried PID; in particular it rejects
identifiers 0x7E7 and 0x7F0 and mode bytes 0x40 and 0x42. -/
theorem isMatchingResponse_correct (f : CANFrame) (pid : Nat) :
    (isMatchingResponse f pid = true ↔
      (0x7E8 ≤ f.canId ∧ f.canId ≤ 0x7EF ∧ f.buf 1 = 0x41 ∧ f.buf 2 = pid))
    ∧ (f.canId = 0x7E7 → isMatchingResponse f pid = false)
    ∧ (f.canId = 0x7F0 → isMatchingResponse f pid = false)
    ∧ (f.buf 1 = 0x40 → isMatchingResponse f pid = false)
    ∧ (f.buf 1 = 0x42 → isMatchingResponse f pid = false) := by
  refine ⟨?_, ?_, ?_, ?_, ?_⟩
  · simp [isMatchingResponse, and_assoc]
  · intro h
    simp [isMatchingResponse, h]
  · intro h
    simp [isMatchingResponse, h]
  · intro h
    simp [isMatchingResponse, h]
  · intro h
    simp [isMatchingResponse, h]

/-- A frame accepted for PID 0x0C, and the same payload on the
out-of-range identifier 0x7E7, used to instantiate C1. -/
def frameOkC1 : CANFrame := ⟨8, 0x7E8, ![0x04, 0x41, 0x0C, 0, 0, 0, 0, 0]⟩

def frameBadC1 : CANFrame := ⟨8, 0x7E7, ![0x04, 0x41, 0x0C, 0, 0, 0, 0, 0]⟩

theorem isMatchingResponse_correct_witness :
    isMatchingResponse frameOkC1 0x0C = true ∧
    isMatchingResponse frameBadC1 0x0C = false :=
  ⟨(isMatchingResponse_correct frameOkC1 0x0C).1.mpr (by decide),
   (isMatchingResponse_correct frameBadC1 0x0C).2.1 rfl⟩

/-- C2: on the AVR target `int` is 16 bits, so the RPM decoder does
NOT compute `((byte0*256)+byte1)/4` for every payload: at byte0 = 0x80
the multiplication overflows and the code yields -8192 where the table
formula yields 8192.  The spec's particular examples (which stay below
the overflow threshold) do hold, as do the other four decoders'
formulas on byte values. -/
theorem decoder_formula_bug :
    decodeRPM ![0x80, 0x00, 0, 0, 0] = -8192 ∧
    Int.tdiv ((0x80 : Int) * 256 + 0x00) 4 = 8192 ∧
    decodeRPM ![0x80, 0x00, 0, 0, 0] ≠ Int.tdiv ((0x80 : Int) * 256 + 0x00) 4 ∧
    decodeRPM ![0x1A, 0xF8, 0, 0, 0] = 1726 ∧
    decodeSpeed ![0x3C, 0, 0, 0, 0] = 60 ∧
    decodeCoolant ![0x5A, 0, 0, 0, 0] = 50 ∧
    decodeThrottle ![0x80, 0, 0, 0, 0] = 50 ∧
    decodeLoad ![0xFF, 0, 0, 0, 0] = 100 := by
  decide

/-- C3: the RPM decoder's output is NOT always in [0, 16383]: the
16-bit overflow at byte0 = 0x80 produces the negative value -8192. -/
theorem rpm_range_bug :
    decodeRPM ![0x80, 0x00, 0, 0, 0] < 0 ∧
    ¬ (0 ≤ decodeRPM ![0x80, 0x00, 0, 0, 0] ∧
        decodeRPM ![0x80, 0x00, 0, 0, 0] ≤ 16383) := by
  decide

/-- A transport that immediately delivers a matching RPM response
whose data bytes are (0xFF, 0xFC). -/
def envCollision : Env :=
  ⟨fun k => 5 * k, fun _ => true,
   fun _ => ⟨8, 0x7E8, ![0x04, 0x41, 0x0C, 0xFF, 0xFC, 0, 0, 0]⟩⟩

/-- C4: the RPM decoder CAN produce its own failure sentinel -1 from a
well-formed payload: data bytes (0xFF, 0xFC) wrap to -4 in 16-bit
arithmetic and -4 tdiv 4 = -1, so a successful exchange is
indistinguishable from a timeout. -/
theorem rpm_sentinel_collision :
    decodeRPM ![0xFF, 0xFC, 0, 0, 0] = -1 ∧
    (getEngineRPM envCollision 0 2).map CallResult.value = some (-1) := by
  decide

/-- C6: for every PID the request frame is 8 bytes
`{0x02, 0x01, pid, 0, 0, 0, 0, 0}` sent on identifier 0x7DF. -/
theorem sendOBDRequest_frame (pid : Nat) :
    (sendOBDRequest pid).canId = 0x7DF ∧
    (sendOBDRequest pid).len = 8 ∧
    (sendOBDRequest pid).data 0 = 0x02 ∧
    (sendOBDRequest pid).data 1 = 0x01 ∧
    (sendOBDRequest pid).data 2 = pid ∧
    (sendOBDRequest pid).data 3 = 0x00 ∧
    (sendOBDRequest pid).data 4 = 0x00 ∧
    (sendOBDRequest pid).data 5 = 0x00 ∧
    (sendOBDRequest pid).data 6 = 0x00 ∧
    (sendOBDRequest pid).data 7 = 0x00 :=
  ⟨rfl, rfl, rfl, rfl, rfl, rfl, rfl, rfl, rfl, rfl⟩

end OlyObd

namespace OlyObd

/-- With no frame ever available and the clock advancing exactly the
5 ms idle delay per step, the polling loop started at step `k0` keeps
recursing until step `k0 + 20` and times out there. -/
theorem readOBDAux_no_frames (env : Env) (pid k0 : Nat)
    (hav : ∀ k, env.avail k = false)
    (ht : ∀ k, env.time (k + 1) = env.time k + 5) :
    ∀ fuel j, j ≤ 20 → 21 ≤ j + fuel →
      readOBDAux pid env (env.time k0) fuel (k0 + j) =
        some (ReadResult.timeout (k0 + 20)) := by
  intro fuel
  induction fuel with
  | zero =>
    intro j h1 h2
    omega
  | succ n ih =>
    intro j h1 h2
    have helapsed : usub32 (env.time (k0 + j)) (env.time k0) = 5 * j := by
      rw [time_shift env k0 ht j]
      exact usub32_add _ _ (by omega)
    by_cases hj : j = 20
    · subst hj
      simp only [readOBDAux, helapsed, CAN_TIMEOUT]
      norm_num
    · have hjlt : 5 * j < CAN_TIMEOUT := by
        unfold CAN_TIMEOUT
        omega
      simp only [readOBDAux, helapsed]
      rw [if_pos hjlt, hav (k0 + j)]
      simp only [Bool.false_eq_true, if_false]
      exact ih (j + 1) (by omega) (by omega)

/-- Whenever the polling loop returns a timeout, at least
`CAN_TIMEOUT` ms have elapsed since the recorded start time. -/
theorem readOBDAux_timeout_elapsed (env : Env) (pid start : Nat) :
    ∀ fuel k k', readOBDAux pid env start fuel k = some (ReadResult.timeout k') →
      CAN_TIMEOUT ≤ usub32 (env.time k') start := by
  intro fuel
  induction fuel with
  | zero =>
    intro k k' h
    simp [readOBDAux] at h
  | succ n ih =>
    intro k k' h
    simp only [readOBDAux] at h
    by_cases hc : usub32 (env.time k) start < CAN_TIMEOUT
    · rw [if_pos hc] at h
      by_cases ha : env.avail k = true
      · rw [if_pos ha] at h
        by_cases hm : isMatchingResponse (env.frame k) pid = true
        · rw [if_pos hm] at h
          simp at h
        · rw [if_neg hm] at h
          exact ih _ _ h
      · rw [if_neg ha] at h
        exact ih _ _ h
    · rw [if_neg hc] at h
      have hk : k = k' := by
        simpa using h
      subst hk
      omega

/-- C5: when the transport never reports an available frame (and each
idle step costs the 5 ms delay), `readOBDResponse` returns Timeout at
step `k0 + 20` with exactly `CAN_TIMEOUT` = 100 ms elapsed — within
[100 ms, 100 ms + one idle interval]; moreover in EVERY environment a
Timeout return means at least 100 ms elapsed since the recorded start,
never earlier. -/
theorem query_timeout_bounds (env : Env) (pid k0 fuel : Nat)
    (hav : ∀ k, env.avail k = false)
    (ht : ∀ k, env.time (k + 1) = env.time k + 5)
    (hfuel : 21 ≤ fuel) :
    readOBDResponse pid env k0 fuel = some (ReadResult.timeout (k0 + 20)) ∧
    usub32 (env.time (k0 + 20)) (env.time k0) = CAN_TIMEOUT ∧
    CAN_TIMEOUT ≤ usub32 (env.time (k0 + 20)) (env.time k0) ∧
    usub32 (env.time (k0 + 20)) (env.time k0) ≤ CAN_TIMEOUT + 5 ∧
    (∀ (env2 : Env) (k02 fuel2 k2 : Nat),
      readOBDResponse pid env2 k02 fuel2 = some (ReadResult.timeout k2) →
      CAN_TIMEOUT ≤ usub32 (env2.time k2) (env2.time k02)) := by
  have h2 : usub32 (env.time (k0 + 20)) (env.time k0) = CAN_TIMEOUT := by
    rw [time_shift env k0 ht 20]
    have := usub32_add (env.time k0) (5 * 20) (by norm_num)
    simpa [CAN_TIMEOUT] using this
  refine ⟨?_, h2, by omega, by omega, ?_⟩
  · exact readOBDAux_no_frames env pid k0 hav ht fuel 0 (by omega) (by omega)
  · intro env2 k02 fuel2 k2 h
    exact readOBDAux_timeout_elapsed env2 pid (env2.time k02) fuel2 k02 k2 h

/-- A transport that never has a frame, with the clock advancing 5 ms
per polling step. -/
def envSilent : Env :=
  ⟨fun k => 5 * k, fun _ => false, fun _ => ⟨8, 0, fun _ => 0⟩⟩

theorem query_timeout_bounds_witness :
    readOBDResponse 0x0C envSilent 0 21 = some (ReadResult.timeout 20) ∧
    usub32 (envSilent.time 20) (envSilent.time 0) = CAN_TIMEOUT := by
  have h := query_timeout_bounds envSilent 0x0C 0 21 (fun _ => rfl)
    (fun k => by show 5 * (k + 1) = 5 * k + 5; ring) (by norm_num)
  exact ⟨h.1, h.2.1⟩

/-- C8: a received frame that fails the matching check is discarded
and the loop simply moves to the next polling step with the SAME
recorded start time: the 100 ms window is neither reset nor extended
by non-matching traffic. -/
theorem nonmatching_frame_discarded (env : Env) (pid start fuel k : Nat)
    (helapsed : usub32 (env.time k) start < CAN_TIMEOUT)
    (hav : env.avail k = true)
    (hmatch : isMatchingResponse (env.frame k) pid = false) :
    readOBDAux pid env start (fuel + 1) k = readOBDAux pid env start fuel (k + 1) := by
  simp only [readOBDAux]
  rw [if_pos helapsed, if_pos hav, if_neg (by simp [hmatch])]

/-- A transport that keeps delivering a response for PID 0x0D while
PID 0x0C is the one queried. -/
def envForeign : Env :=
  ⟨fun k => 5 * k, fun _ => true,
   fun _ => ⟨8, 0x7E8, ![0x03, 0x41, 0x0D, 0x3C, 0, 0, 0, 0]⟩⟩

theorem nonmatching_frame_discarded_witness :
    readOBDAux 0x0C envForeign 0 3 0 = readOBDAux 0x0C envForeign 0 2 1 :=
  nonmatching_frame_discarded envForeign 0x0C 0 2 0 (by decide) rfl (by decide)

end OlyObd

namespace OlyObd

/-- `getEngineRPM` sends exactly one request, for PID 0x0C, whatever
the exchange outcome. -/
theorem getEngineRPM_sends (env : Env) (k0 fuel : Nat) (r : CallResult)
    (h : getEngineRPM env k0 fuel = some r) :
    r.sends = [sendOBDRequest PID_ENGINE_RPM] := by
  unfold getEngineRPM at h
  split at h
  · exact (congrArg CallResult.sends (Option.some.inj h)).symm
  · exact (congrArg CallResult.sends (Option.some.inj h)).symm
  · exact absurd h (by simp)

theorem getVehicleSpeed_sends (env : Env) (k0 fuel : Nat) (r : CallResult)
    (h : getVehicleSpeed env k0 fuel = some r) :
    r.sends = [sendOBDRequest PID_VEHICLE_SPEED] := by
  unfold getVehicleSpeed at h
  split at h
  · exact (congrArg CallResult.sends (Option.some.inj h)).symm
  · exact (congrArg CallResult.sends (Option.some.inj h)).symm
  · exact absurd h (by simp)

theorem getCoolantTemp_sends (env : Env) (k0 fuel : Nat) (r : CallResult)
    (h : getCoolantTemp env k0 fuel = some r) :
    r.sends = [sendOBDRequest PID_COOLANT_TEMP] := by
  unfold getCoolantTemp at h
  split at h
  · exact (congrArg CallResult.sends (Option.some.inj h)).symm
  · exact (congrArg CallResult.sends (Option.some.inj h)).symm
  · exact absurd h (by simp)

theorem getThrottlePosition_sends (env : Env) (k0 fuel : Nat) (r : CallResult)
    (h : getThrottlePosition env k0 fuel = some r) :
    r.sends = [sendOBDRequest PID_THROTTLE_POSITION] := by
  unfold getThrottlePosition at h
  split at h
  · exact (congrArg CallResult.sends (Option.some.inj h)).symm
  · exact (congrArg CallResult.sends (Option.some.inj h)).symm
  · exact absurd h (by simp)

theorem getEngineLoad_sends (env : Env) (k0 fuel : Nat) (r : CallResult)
    (h : getEngineLoad env k0 fuel = some r) :
    r.sends = [sendOBDRequest PID_ENGINE_LOAD] := by
  unfold getEngineLoad at h
  split at h
  · exact (congrArg CallResult.sends (Option.some.inj h)).symm
  · exact (congrArg CallResult.sends (Option.some.inj h)).symm
  · exact absurd h (by simp)

/-- C7: every completed sweep sends exactly five requests, in the
fixed order RPM, Speed, Coolant, Throttle, Load (one per PID,
whatever each exchange's outcome), all on the broadcast identifier. -/
theorem sweep_fixed_order (env : Env) (k0 fuel : Nat)
    (out : List SentFrame × List Int × Nat)
    (h : sweep env k0 fuel = some out) :
    out.1.map (fun f => f.data 2) =
      [PID_ENGINE_RPM, PID_VEHICLE_SPEED, PID_COOLANT_TEMP,
        PID_THROTTLE_POSITION, PID_ENGINE_LOAD] ∧
    out.1.map SentFrame.canId =
      [OBD_REQUEST_ID, OBD_REQUEST_ID, OBD_REQUEST_ID,
        OBD_REQUEST_ID, OBD_REQUEST_ID] := by
  unfold sweep at h
  cases h1 : getEngineRPM env k0 fuel with
  | none => simp only [h1] at h; exact Option.noConfusion h
  | some r1 =>
    simp only [h1] at h
    cases h2 : getVehicleSpeed env r1.next fuel with
    | none => simp only [h2] at h; exact Option.noConfusion h
    | some r2 =>
      simp only [h2] at h
      cases h3 : getCoolantTemp env r2.next fuel with
      | none => simp only [h3] at h; exact Option.noConfusion h
      | some r3 =>
        simp only [h3] at h
        cases h4 : getThrottlePosition env r3.next fuel with
        | none => simp only [h4] at h; exact Option.noConfusion h
        | some r4 =>
          simp only [h4] at h
          cases h5 : getEngineLoad env r4.next fuel with
          | none => simp only [h5] at h; exact Option.noConfusion h
          | some r5 =>
            simp only [h5, Option.some.injEq] at h
            rw [← h,
              getEngineRPM_sends env k0 fuel r1 h1,
              getVehicleSpeed_sends env r1.next fuel r2 h2,
              getCoolantTemp_sends env r2.next fuel r3 h3,
              getThrottlePosition_sends env r3.next fuel r4 h4,
              getEngineLoad_sends env r4.next fuel r5 h5]
            exact ⟨rfl, rfl⟩

/-- The completed sweep of `envSilent` starting at step 0 with fuel
25: every exchange times out after 21 polling steps. -/
def sweepSilentOut : List SentFrame × List Int × Nat :=
  ([sendOBDRequest PID_ENGINE_RPM, sendOBDRequest PID_VEHICLE_SPEED,
    sendOBDRequest PID_COOLANT_TEMP, sendOBDRequest PID_THROTTLE_POSITION,
    sendOBDRequest PID_ENGINE_LOAD],
   [-1, -1, -999, -1, -1], 105)

theorem sweep_fixed_order_witness :
    sweepSilentOut.1.map (fun f => f.data 2) =
      [PID_ENGINE_RPM, PID_VEHICLE_SPEED, PID_COOLANT_TEMP,
        PID_THROTTLE_POSITION, PID_ENGINE_LOAD] :=
  (sweep_fixed_order envSilent 0 25 sweepSilentOut rfl).1

/-- C9: `lastRequestTime` starts at 0 and one `loop()` iteration
either leaves it unchanged (when less than a full request interval
has elapsed) or — exactly when the interval has elapsed, in the same
iteration that runs a complete sweep — overwrites it with the time
read at the top of the iteration.  No other operation of the model
touches it. -/
theorem lastRequestTime_frame_effect (env : Env) (fuel : Nat) (s r : LoopState) :
    lastRequestTimeInit = 0 ∧
    (loopIter env fuel s = some r →
      (usub32 (env.time s.k) s.lastRequestTime < OBD_REQUEST_INTERVAL ∧
        r.lastRequestTime = s.lastRequestTime) ∨
      (OBD_REQUEST_INTERVAL ≤ usub32 (env.time s.k) s.lastRequestTime ∧
        r.lastRequestTime = env.time s.k ∧
        ∃ out, sweep env (s.k + 1) fuel = some out)) := by
  refine ⟨rfl, ?_⟩
  intro h
  simp only [loopIter] at h
  by_cases hc : OBD_REQUEST_INTERVAL ≤ usub32 (env.time s.k) s.lastRequestTime
  · right
    rw [if_pos hc] at h
    cases hs : sweep env (s.k + 1) fuel with
    | none => rw [hs] at h; exact absurd h (by simp)
    | some out =>
      rw [hs] at h
      cases h
      exact ⟨hc, rfl, out, rfl⟩
  · left
    rw [if_neg hc] at h
    cases h
    exact ⟨by omega, rfl⟩

/-- An iteration whose clock reads 600 ms against a last-request time
of 500 ms: the interval has not elapsed. -/
def envIdle : Env :=
  ⟨fun _ => 600, fun _ => false, fun _ => ⟨8, 0, fun _ => 0⟩⟩

theorem lastRequestTime_frame_effect_witness :
    (usub32 (envIdle.time (0 : Nat)) 500 < OBD_REQUEST_INTERVAL ∧
      (⟨500, 1⟩ : LoopState).lastRequestTime = 500) ∨
    (OBD_REQUEST_INTERVAL ≤ usub32 (envIdle.time (0 : Nat)) 500 ∧
      (⟨500, 1⟩ : LoopState).lastRequestTime = envIdle.time (0 : Nat) ∧
      ∃ out, sweep envIdle (0 + 1) 1 = some out) :=
  (lastRequestTime_frame_effect envIdle 1 ⟨500, 0⟩ ⟨500, 1⟩).2 rfl

end OlyObd

namespace OlyObd

/-- The polling loop's outcome depends on a delivered frame only
through its identifier and buffer cells 1..7: the reported length and
buffer cell 0 are never consulted. -/
theorem readOBDAux_congr (env env2 : Env) (pid : Nat)
    (htime : ∀ k, env2.time k = env.time k)
    (havail : ∀ k, env2.avail k = env.avail k)
    (hid : ∀ k, (env2.frame k).canId = (env.frame k).canId)
    (hbuf : ∀ (k : Nat) (i : Fin 8), 1 ≤ i.val →
      (env2.frame k).buf i = (env.frame k).buf i) :
    ∀ fuel start k, readOBDAux pid env2 start fuel k =
      readOBDAux pid env start fuel k := by
  intro fuel
  induction fuel with
  | zero => intro start k; rfl
  | succ n ih =>
    intro start k
    have hm : isMatchingResponse (env2.frame k) pid =
        isMatchingResponse (env.frame k) pid := by
      unfold isMatchingResponse
      rw [hid k, hbuf k 1 (by decide), hbuf k 2 (by decide)]
    have hd : extractData (env2.frame k) = extractData (env.frame k) := by
      funext i
      exact hbuf k ⟨3 + i.val, by omega⟩ (by show 1 ≤ 3 + i.val; omega)
    simp only [readOBDAux, htime k, havail k, hm, hd, ih]

/-- C10: the response reader ignores the reported frame length (and
buffer cell 0): two transports delivering the same identifiers and
the same buffer cells 1..7, but arbitrary lengths, produce identical
exchange outcomes — a short frame is handled exactly like any other. -/
theorem read_ignores_len (env env2 : Env) (pid k0 fuel : Nat)
    (htime : ∀ k, env2.time k = env.time k)
    (havail : ∀ k, env2.avail k = env.avail k)
    (hid : ∀ k, (env2.frame k).canId = (env.frame k).canId)
    (hbuf : ∀ (k : Nat) (i : Fin 8), 1 ≤ i.val →
      (env2.frame k).buf i = (env.frame k).buf i) :
    readOBDResponse pid env2 k0 fuel = readOBDResponse pid env k0 fuel := by
  unfold readOBDResponse
  rw [htime k0]
  exact readOBDAux_congr env env2 pid htime havail hid hbuf fuel (env.time k0) k0

/-- A transport delivering a full-length speed response, and the same
transport reporting length 3 for every frame. -/
def envFullLen : Env :=
  ⟨fun k => 5 * k, fun _ => true,
   fun _ => ⟨8, 0x7E8, ![0x03, 0x41, 0x0D, 0x3C, 0, 0, 0, 0]⟩⟩

def envShortLen : Env :=
  ⟨fun k => 5 * k, fun _ => true,
   fun _ => ⟨3, 0x7E8, ![0x03, 0x41, 0x0D, 0x3C, 0, 0, 0, 0]⟩⟩

theorem read_ignores_len_witness :
    readOBDResponse 0x0D envShortLen 0 2 = readOBDResponse 0x0D envFullLen 0 2 :=
  read_ignores_len envFullLen envShortLen 0x0D 0 2 (fun _ => rfl) (fun _ => rfl)
    (fun _ => rfl) (fun _ _ _ => rfl)

end OlyObd
